import Mathlib

/-!
Verification of the device batch-orchestration core of athena-web.

The definitions below are a shallow embedding of the Python code in
`src/athena/api/google_api/devices.py` and
`src/athena/api/aeries_api/client.py`.  The remote Google / Aeries HTTP
services are external black boxes; every place the Python code performs a
network call, the embedding takes the outcome of that call as an explicit
function parameter (an environment), so that the number of calls issued and
the data sent in each call become observable values that theorems can speak
about.  Thread-pool fan-out (`ThreadPoolExecutor` / `as_completed`) is
embedded by processing batches in submission order: the claims under study
are about sequence membership and counts, which are order-independent, and
the spec itself states that membership, not order, is the contract.
-/

namespace Athena

/-- JSON values as delivered by the remote services (Python `dict` / `list` /
scalars after `json` parsing).  Python `None` and JSON `null` coincide. -/
inductive JSON where
  | null : JSON
  | bool : Bool → JSON
  | num : Int → JSON
  | str : String → JSON
  | arr : List JSON → JSON
  | obj : List (String × JSON) → JSON

/-- Python `str.startswith`, over the character list of the string:
`isPreOf pat s` is true when `pat` is an initial segment of `s`. -/
def isPreOf : List Char → List Char → Bool
  | [], _ => true
  | _ :: _, [] => false
  | a :: as, b :: bs => a == b && isPreOf as bs

/-- Python `pat in s` on character lists: some suffix of `s` starts with `pat`. -/
def hasSub (pat : List Char) : List Char → Bool
  | [] => isPreOf pat []
  | s@(_ :: rest) => isPreOf pat s || hasSub pat rest

/-- Python `s.startswith(pre)`. -/
def strStartsWith (s pre : String) : Bool := isPreOf pre.toList s.toList

/-- Python `pat in s` (substring containment). -/
def containsSub (s pat : String) : Bool := hasSub pat.toList s.toList

/-- Python `key.split(sep)` for a one-character separator, on character lists:
always returns at least one (possibly empty) group. -/
def splitChar (c : Char) : List Char → List (List Char)
  | [] => [[]]
  | a :: as =>
    match splitChar c as with
    | [] => [[]]
    | g :: gs => if a == c then [] :: g :: gs else (a :: g) :: gs

/-- Python `key.split('.')`. -/
def splitDots (key : String) : List String :=
  (splitChar '.' key.toList).map (fun cs => String.mk cs)

/-- Python `fields.get(k)` on a JSON object: a missing key and a key stored
with JSON `null` both come back as Python `None`, which the caller of
`get_nested_value` treats identically (`if data is None: return None`). -/
def objGet (fields : List (String × JSON)) (k : String) : Option JSON :=
  match fields.lookup k with
  | some JSON.null => none
  | some v => some v
  | none => none

/-- The loop body of `Devices.get_nested_value`
(`src/athena/api/google_api/devices.py` lines 260-274), after `key.split('.')`:
walk the key components, descending through dicts, taking the head of a
non-empty list (Python `data[0].get(k)`, whose `AttributeError` on a
non-dict head is caught and turned into `None`), and returning `none`
(Python `None`) as soon as a step is missing or the value is not traversable. -/
def get_nested_value_go : JSON → List String → Option JSON
  | data, [] => some data
  | JSON.obj fields, k :: ks =>
    match objGet fields k with
    | none => none
    | some v => get_nested_value_go v ks
  | JSON.arr (x :: _), k :: ks =>
    match x with
    | JSON.obj fields =>
      (match objGet fields k with
       | none => none
       | some v => get_nested_value_go v ks)
    | _ => none
  | _, _ :: _ => none

/-- `Devices.get_nested_value(data, key)`: split the dot-notation key and walk
the components. -/
def get_nested_value (data : JSON) (key : String) : Option JSON :=
  get_nested_value_go data (splitDots key)

/-! ### Class constants of `Devices` (devices.py lines 176-179) -/

/-- Maximum batch size for mutating operations. -/
def MAX_BATCH_SIZE : Nat := 50

/-- Maximum attempt count of the retry loops. -/
def MAX_RETRIES : Nat := 3

/-- Fixed delay (seconds) slept between retry attempts. -/
def RETRY_DELAY : Nat := 1

/-! ### Device records and identifier resolution

`Devices.get_device_info` (lines 351-375) resolves each incoming identifier
through `find_device(device, identifier_type, 'deviceId', 'annotatedAssetId',
'orgUnitPath', 'status')` and, when the device is found, builds a dictionary
with `deviceId`, `annotatedAssetId` (possibly `None`), and `orgUnitPath` /
`status` defaulted to `'Unknown'`.  Identifiers that do not resolve are only
logged (`"Device not found"`) and are appended to nothing.  The resolution
outcome per identifier is the remote service's business, so the embedding
takes it as a parameter `find : ι → Option DeviceInfo`: `none` models
`find_device` returning a falsy value, `some info` models a found device with
the defaults already applied. -/

/-- The per-device dictionary produced by `Devices.get_device_info`. -/
structure DeviceInfo where
  deviceId : String
  annotatedAssetId : Option String
  orgUnitPath : String
  status : String
deriving DecidableEq

/-- `Devices.get_device_info`: resolve identifiers in order, dropping the ones
the lookup does not find. -/
def get_device_info {ι : Type} (find : ι → Option DeviceInfo) (devices : List ι) :
    List DeviceInfo :=
  devices.filterMap find

/-! ### Batch partitioner

devices.py lines 516-520 (and 683-686):
`batches = [lst[i:i + MAX_BATCH_SIZE] for i in range(0, len(lst), MAX_BATCH_SIZE)]`.
The embedding peels `take B` / `drop B` slices; the fuel argument (initially
the list length) only serves Lean's termination checker and never runs out
when `0 < B`, since each step drops at least one element. -/

/-- Slicing loop of the batch partitioner. -/
def split_batches_go {α : Type} (B : Nat) : Nat → List α → List (List α)
  | _, [] => []
  | 0, _ :: _ => []
  | fuel + 1, a :: as => (a :: as).take B :: split_batches_go B fuel ((a :: as).drop B)

/-- The batch partitioner `[lst[i:i+B] for i in range(0, len(lst), B)]`. -/
def split_into_batches {α : Type} (B : Nat) (l : List α) : List (List α) :=
  split_batches_go B l.length l

/-- The fuel is irrelevant as long as it dominates the list length (needs
`0 < B` so that every step strictly shrinks the list). -/
theorem split_batches_go_fuel {α : Type} {B : Nat} (hB : 0 < B) :
    ∀ (fuel : Nat) (l : List α) (fuel' : Nat), l.length ≤ fuel → l.length ≤ fuel' →
      split_batches_go B fuel l = split_batches_go B fuel' l := by
  intro fuel
  induction fuel with
  | zero =>
    intro l fuel' h _
    have hl : l = [] := List.eq_nil_of_length_eq_zero (Nat.le_zero.mp h)
    subst hl
    cases fuel' <;> rfl
  | succ f ih =>
    intro l fuel' h h'
    cases l with
    | nil => cases fuel' <;> rfl
    | cons a as =>
      cases fuel' with
      | zero => simp at h'
      | succ f' =>
        simp only [split_batches_go]
        congr 1
        apply ih
        · simp only [List.length_drop, List.length_cons]
          simp only [List.length_cons] at h
          omega
        · simp only [List.length_drop, List.length_cons]
          simp only [List.length_cons] at h'
          omega

/-- Unfolding equation of the partitioner on a non-empty list. -/
theorem split_into_batches_cons {α : Type} {B : Nat} (hB : 0 < B) (l : List α)
    (hl : l ≠ []) :
    split_into_batches B l = l.take B :: split_into_batches B (l.drop B) := by
  cases l with
  | nil => exact absurd rfl hl
  | cons a as =>
    show split_batches_go B (as.length + 1) (a :: as)
        = (a :: as).take B :: split_batches_go B ((a :: as).drop B).length ((a :: as).drop B)
    simp only [split_batches_go]
    congr 1
    apply split_batches_go_fuel hB
    · simp only [List.length_drop, List.length_cons]
      omega
    · exact Nat.le_refl _

/-- Concatenating the batches, in order, gives back the input. -/
theorem split_into_batches_join {α : Type} (B : Nat) (hB : 0 < B) (l : List α) :
    (split_into_batches B l).flatten = l := by
  cases l with
  | nil => rfl
  | cons a as =>
    rw [split_into_batches_cons hB _ (by simp)]
    have ih := split_into_batches_join B hB ((a :: as).drop B)
    show (a :: as).take B ++ (split_into_batches B ((a :: as).drop B)).flatten = a :: as
    rw [ih, List.take_append_drop]
termination_by l.length
decreasing_by
  simp only [List.length_drop, List.length_cons]
  omega

/-- Every batch has size at most `B`. -/
theorem split_into_batches_size {α : Type} (B : Nat) (hB : 0 < B) (l : List α) :
    ∀ c ∈ split_into_batches B l, c.length ≤ B := by
  cases l with
  | nil => intro c hc; simp [split_into_batches, split_batches_go] at hc
  | cons a as =>
    intro c hc
    rw [split_into_batches_cons hB _ (by simp)] at hc
    rcases List.mem_cons.mp hc with h | h
    · subst h
      simp only [List.length_take]
      omega
    · exact split_into_batches_size B hB ((a :: as).drop B) c h
termination_by l.length
decreasing_by
  simp only [List.length_drop, List.length_cons]
  omega

/-- There are exactly `⌈N / B⌉` batches, written `(N + B - 1) / B`. -/
theorem split_into_batches_count {α : Type} (B : Nat) (hB : 0 < B) (l : List α) :
    (split_into_batches B l).length = (l.length + B - 1) / B := by
  cases l with
  | nil =>
    have h0 : (split_into_batches B ([] : List α)).length = 0 := rfl
    rw [h0]
    simp only [List.length_nil, Nat.zero_add]
    rw [Nat.div_eq_of_lt (by omega)]
  | cons a as =>
    rw [split_into_batches_cons hB _ (by simp)]
    have ih := split_into_batches_count B hB ((a :: as).drop B)
    simp only [List.length_cons, List.length_drop] at ih ⊢
    rw [ih]
    rcases Nat.lt_or_ge (as.length + 1) (B + 1) with hlt | hge
    · have h2 : as.length + 1 - B = 0 := by omega
      have h4 : as.length + 1 + B - 1 = as.length + B := by omega
      rw [h2, h4, Nat.add_div_right _ hB,
        Nat.div_eq_of_lt (show 0 + B - 1 < B by omega),
        Nat.div_eq_of_lt (show as.length < B by omega)]
    · have h5 : as.length + 1 - B + B - 1 = as.length := by omega
      have h6 : as.length + 1 + B - 1 = as.length + B := by omega
      rw [h5, h6, Nat.add_div_right _ hB]
termination_by l.length
decreasing_by
  simp only [List.length_drop, List.length_cons]
  omega

/-! ### `move_devices_to_ou` and its per-batch retry wrapper

`Devices.move_batch` (lines 430-455) issues one bulk
`chromeosdevices().moveDevicesToOu` request whose body lists every device id
of the batch, then (after the request succeeded) writes one log line per
device: `move:[src]:exists:id` when the device's current org-unit path
already equals `'/' + target_ou`, and `move:[src]:[/target]:id` otherwise.
`Devices.process_batch` (lines 457-485) invokes `move_batch` up to
`MAX_RETRIES` times, sleeping `RETRY_DELAY` between attempts, and converts
the final failure into one failure record per batch item carrying the last
exception text.  The outcome of each attempt of the remote call is the
environment: `att attempt` is `.ok ()` when that invocation's `.execute()`
succeeds and `.error e` when it raises an exception with text `e`.
(`move_batch` additionally carries a `google.api_core` `retry.Retry`
decorator; the embedding treats the decorated call as the atomic operation
whose per-invocation outcome `att` reports, which is also how `process_batch`
observes it.) -/

/-- A record of the `success` list of a batch move. -/
structure MoveSuccessRecord where
  deviceId : String
  annotatedAssetId : Option String
  newOrgUnit : String
deriving DecidableEq

/-- A `{deviceId, annotatedAssetId, reason}` failure record. -/
structure FailRecord where
  deviceId : String
  annotatedAssetId : Option String
  reason : String
deriving DecidableEq

/-- The observable content of one `moveDevicesToOu` network request. -/
structure MoveCall where
  orgUnitPath : String
  deviceIds : List String
deriving DecidableEq

/-- Python string interpolation of a possibly-`None` asset id into a log line. -/
def assetText : Option String → String
  | some s => s
  | none => "None"

/-- The per-device log line of `move_batch` (lines 440-446): the `exists`
form when the device's current org unit already equals `'/' + target_ou`,
the move form otherwise. -/
def move_log (target_ou : String) (d : DeviceInfo) : String :=
  if d.orgUnitPath = "/" ++ target_ou then
    "move:[" ++ d.orgUnitPath ++ "]:exists:" ++ assetText d.annotatedAssetId
  else
    "move:[" ++ d.orgUnitPath ++ "]:[/" ++ target_ou ++ "]:"
      ++ assetText d.annotatedAssetId

/-- `Devices.move_batch`: one bulk move request for the whole batch; on
success, the per-device log lines and a success record for every batch
member; on failure the exception propagates to `process_batch`.  The request
is issued (and hence recorded) whether or not it succeeds. -/
def move_batch (outcome : Except String Unit) (device_batch : List DeviceInfo)
    (target_ou : String) :
    Except String (List MoveSuccessRecord) × MoveCall × List String :=
  let call : MoveCall := ⟨target_ou, device_batch.map (·.deviceId)⟩
  match outcome with
  | .error e => (.error e, call, [])
  | .ok _ =>
    (.ok (device_batch.map (fun d => ⟨d.deviceId, d.annotatedAssetId, target_ou⟩)),
      call, device_batch.map (move_log target_ou))

/-- Result alternative of one processed batch: the Python dict carries either
a `success` key or a `failure` key. -/
inductive BatchResult where
  | success (records : List MoveSuccessRecord)
  | failure (records : List FailRecord)
deriving DecidableEq

/-- A processed batch together with its observable side effects: the network
requests issued, the sleeps performed between attempts, and the log lines. -/
structure BatchExec where
  result : BatchResult
  calls : List MoveCall
  sleeps : List Nat
  logs : List String
deriving DecidableEq

/-- The `for attempt in range(MAX_RETRIES)` loop of `Devices.process_batch`.
`rem + 1` is the number of attempts still available, so `rem = 0` exactly
when `attempt == MAX_RETRIES - 1`.  The fuel-0 case models Python falling off
the loop (returning `None`); it is unreachable because `MAX_RETRIES = 3 > 0`
and the last attempt always returns. -/
def process_batch_go (att : Nat → Except String Unit) (batch : List DeviceInfo)
    (target_ou : String) : Nat → Nat → BatchExec
  | _, 0 => ⟨.failure [], [], [], []⟩
  | attempt, rem + 1 =>
    match move_batch (att attempt) batch target_ou with
    | (.ok records, call, logs) => ⟨.success records, [call], [], logs⟩
    | (.error e, call, _) =>
      if rem = 0 then
        ⟨.failure (batch.map (fun d => ⟨d.deviceId, d.annotatedAssetId, e⟩)),
          [call], [], []⟩
      else
        let rest := process_batch_go att batch target_ou (attempt + 1) rem
        ⟨rest.result, call :: rest.calls, RETRY_DELAY :: rest.sleeps, rest.logs⟩

/-- `Devices.process_batch`: retry `move_batch` up to `MAX_RETRIES` times. -/
def process_batch (att : Nat → Except String Unit) (batch : List DeviceInfo)
    (target_ou : String) : BatchExec :=
  process_batch_go att batch target_ou 0 MAX_RETRIES

/-- Merging the per-batch results, in completion order, into the aggregate
report (`results['success'].extend` / `results['failure'].extend`,
lines 532-537). -/
structure MoveReport where
  success : List MoveSuccessRecord
  failure : List FailRecord
deriving DecidableEq

/-- Fold of the `as_completed` collection loop (batches taken in submission
order; the claims are count and membership properties, which do not depend
on completion order). -/
def merge_batch_results : List BatchResult → MoveReport
  | [] => ⟨[], []⟩
  | .success s :: rest =>
    let r := merge_batch_results rest
    ⟨s ++ r.success, r.failure⟩
  | .failure f :: rest =>
    let r := merge_batch_results rest
    ⟨r.success, f ++ r.failure⟩

/-- Target normalization of `move_devices_to_ou` (lines 502-504): prepend
`Chromebooks/` when absent. -/
def normalize_target_ou (target_ou : String) : String :=
  if strStartsWith target_ou "Chromebooks/" then target_ou
  else "Chromebooks/" ++ target_ou

/-- `Devices.move_devices_to_ou` (lines 487-539), for the identifier-lookup
path (`identifier_type` of `annotatedAssetId` or `serialNumber`): normalize
the target, resolve the identifiers (dropping the unresolved ones), split
into batches of `MAX_BATCH_SIZE`, process every batch through the retry
wrapper, and merge.  `att i` is the attempt-outcome environment of batch `i`.
The returned triple is (aggregate report, all requests issued, all log
lines). -/
def move_devices_to_ou {ι : Type} (find : ι → Option DeviceInfo)
    (att : Nat → Nat → Except String Unit) (devices : List ι) (target_ou : String) :
    MoveReport × List MoveCall × List String :=
  let target := normalize_target_ou target_ou
  let device_info_list := get_device_info find devices
  let batches := split_into_batches MAX_BATCH_SIZE device_info_list
  let execs := batches.enum.map (fun p => process_batch (att p.1) p.2 target)
  (merge_batch_results (execs.map (·.result)),
    execs.flatMap (·.calls), execs.flatMap (·.logs))

/-! ### `deprovision` (lines 541-651)

`process_deprovision_device` short-circuits devices whose resolved status is
already `DEPROVISIONED`, otherwise retries the `action` call up to
`MAX_RETRIES` times; an exception whose text contains
`"Illegal device state transition"` is converted into the
`"Already deprovisioned"` outcome, and the exception of the final attempt is
re-raised.  `deprovision` then files each device into `success`,
`already_deprovisioned` or `failure`, and — when a truthy `target_ou` was
given and `success` is non-empty — moves `[d['annotatedAssetId'] for d in
results['success']]` through `move_devices_to_ou` as a second phase.
`attD deviceId attempt` is the outcome environment of that device's
deprovision attempts. -/

/-- Outcome record of a single deprovisioned device. -/
structure DeprovRecord where
  deviceId : String
  annotatedAssetId : Option String
  status : String
deriving DecidableEq

/-- Retry loop of `Devices.process_deprovision_device` (lines 626-651).  The
fuel-0 case is Python falling off the loop (unreachable for
`MAX_RETRIES = 3`, since the last attempt raises or returns). -/
def process_deprovision_go (att : Nat → Except String Unit) (d : DeviceInfo) :
    Nat → Nat → Except String DeprovRecord
  | _, 0 => .error ""
  | attempt, rem + 1 =>
    match att attempt with
    | .ok _ => .ok ⟨d.deviceId, d.annotatedAssetId, "Deprovisioned"⟩
    | .error e =>
      if containsSub e "Illegal device state transition" then
        .ok ⟨d.deviceId, d.annotatedAssetId, "Already deprovisioned"⟩
      else if rem = 0 then .error e
      else process_deprovision_go att d (attempt + 1) rem

/-- `Devices.process_deprovision_device`. -/
def process_deprovision_device (att : Nat → Except String Unit) (d : DeviceInfo) :
    Except String DeprovRecord :=
  if d.status = "DEPROVISIONED" then
    .ok ⟨d.deviceId, d.annotatedAssetId, "Already deprovisioned"⟩
  else process_deprovision_go att d 0 MAX_RETRIES

/-- Devices filed under `results['success']` (completed outcomes whose status
is not `"Already deprovisioned"`). -/
def deprov_successes (outcomes : List (DeviceInfo × Except String DeprovRecord)) :
    List DeprovRecord :=
  outcomes.filterMap (fun p =>
    match p.2 with
    | .ok rec => if rec.status = "Already deprovisioned" then none else some rec
    | .error _ => none)

/-- Devices filed under `results['already_deprovisioned']`. -/
def deprov_already (outcomes : List (DeviceInfo × Except String DeprovRecord)) :
    List DeprovRecord :=
  outcomes.filterMap (fun p =>
    match p.2 with
    | .ok rec => if rec.status = "Already deprovisioned" then some rec else none
    | .error _ => none)

/-- Devices filed under `results['failure']` (the worker raised; the record
is built from the resolved device info and the exception text). -/
def deprov_failures (outcomes : List (DeviceInfo × Except String DeprovRecord)) :
    List FailRecord :=
  outcomes.filterMap (fun p =>
    match p.2 with
    | .error e => some ⟨p.1.deviceId, p.1.annotatedAssetId, e⟩
    | .ok _ => none)

/-- The aggregate report of `Devices.deprovision`.  `movePassed` records the
argument handed to the phase-two `move_devices_to_ou` call (`none` when
phase two did not run; Python then leaves the `move_*` keys absent, modelled
by empty lists). -/
structure DeprovReport where
  success : List DeprovRecord
  already_deprovisioned : List DeprovRecord
  failure : List FailRecord
  movePassed : Option (List (Option String))
  move_success : List MoveSuccessRecord
  move_failure : List FailRecord
deriving DecidableEq

/-- `Devices.deprovision` (lines 541-598).  `find` resolves phase-one
identifiers; `findM` resolves the asset ids handed to phase two (they can be
`None` when a deprovisioned device had no asset tag, hence `Option String`);
`attM` is the phase-two batch attempt environment.  A `target_ou` of `none`
or `some ""` is falsy in Python, so phase two requires a non-empty target
and a non-empty success list. -/
def deprovision (find : String → Option DeviceInfo)
    (attD : String → Nat → Except String Unit)
    (findM : Option String → Option DeviceInfo)
    (attM : Nat → Nat → Except String Unit)
    (devices : List String) (target_ou : Option String) : DeprovReport :=
  let infos := get_device_info find devices
  let outcomes := infos.map (fun d => (d, process_deprovision_device (attD d.deviceId) d))
  let succ := deprov_successes outcomes
  let already := deprov_already outcomes
  let fail := deprov_failures outcomes
  match target_ou with
  | some t =>
    if t ≠ "" ∧ succ ≠ [] then
      let move_devices := succ.map (·.annotatedAssetId)
      let move_results := move_devices_to_ou findM attM move_devices t
      ⟨succ, already, fail, some move_devices,
        move_results.1.success, move_results.1.failure⟩
    else ⟨succ, already, fail, none, [], []⟩
  | none => ⟨succ, already, fail, none, [], []⟩

/-! ### `reboot_devices` (lines 653-784)

`reboot_devices` first validates `user_session_delay_seconds` (an integer in
`[0, 300]`), raising `ValueError` before the service is even loaded; then
resolves, batches, and sends one `issueCommand` per device with up to
`MAX_RETRIES` attempts.  `process_reboot_device` re-raises a `RefreshError`
immediately (no retry); any other exception is retried and the final one
re-raised; `process_reboot_batch` converts a raised exception into a failure
record.  `att deviceId attempt` is the per-attempt outcome environment. -/

/-- Outcome of one `issueCommand` invocation for a device: success with the
optional command id, a credential `RefreshError`, or any other exception. -/
inductive RebootAttempt where
  | ok (commandId : Option String)
  | refreshErr (msg : String)
  | err (msg : String)

/-- Success record of a rebooted device. -/
structure RebootRecord where
  deviceId : String
  annotatedAssetId : Option String
  status : String
  commandId : Option String
deriving DecidableEq

/-- Retry loop of `Devices.process_reboot_device` (lines 762-784).  Fuel-0 is
Python falling off the loop, unreachable for `MAX_RETRIES = 3`. -/
def process_reboot_go (att : Nat → RebootAttempt) (d : DeviceInfo) :
    Nat → Nat → Except String RebootRecord
  | _, 0 => .error ""
  | attempt, rem + 1 =>
    match att attempt with
    | .ok cid => .ok ⟨d.deviceId, d.annotatedAssetId, "REBOOT command sent", cid⟩
    | .refreshErr m => .error m
    | .err m =>
      if rem = 0 then .error m
      else process_reboot_go att d (attempt + 1) rem

/-- `Devices.process_reboot_device`. -/
def process_reboot_device (att : Nat → RebootAttempt) (d : DeviceInfo) :
    Except String RebootRecord :=
  process_reboot_go att d 0 MAX_RETRIES

/-- Per-batch aggregation of `Devices.process_reboot_batch` (lines 707-741):
every device of the batch lands in exactly one of the two lists. -/
structure RebootReport where
  success : List RebootRecord
  failure : List FailRecord
deriving DecidableEq

/-- `Devices.process_reboot_batch`. -/
def process_reboot_batch (att : String → Nat → RebootAttempt)
    (batch : List DeviceInfo) : RebootReport :=
  batch.foldr (fun d acc =>
    match process_reboot_device (att d.deviceId) d with
    | .ok r => ⟨r :: acc.success, acc.failure⟩
    | .error e => ⟨acc.success, ⟨d.deviceId, d.annotatedAssetId, e⟩ :: acc.failure⟩)
    ⟨[], []⟩

/-- `Devices.reboot_devices` (identifier-lookup path).  The validation of
`user_session_delay_seconds` happens before identifier resolution, before
batching and before any network call: in the error branch neither `find`
nor `att` is consulted. -/
def reboot_devices (find : String → Option DeviceInfo)
    (att : String → Nat → RebootAttempt) (devices : List String)
    (user_session_delay_seconds : Int) : Except String RebootReport :=
  if ¬(0 ≤ user_session_delay_seconds ∧ user_session_delay_seconds ≤ 300) then
    .error "user_session_delay_seconds must be an integer between 0 and 300."
  else
    let infos := get_device_info find devices
    let batches := split_into_batches MAX_BATCH_SIZE infos
    .ok (batches.foldr (fun b acc =>
      let r := process_reboot_batch att b
      ⟨r.success ++ acc.success, r.failure ++ acc.failure⟩) ⟨[], []⟩)

/-! ### `find_device` and the device cache (lines 252-349)

The cache is a dict keyed by `f"{identifier_type}:{identifier}"` holding the
projected result of the original fetch.  On a hit, `find_device` returns the
cached projection without any remote call — and, when exactly one field is
requested, `list(result.values())[0]`: the first value of the cached
projection, whatever fields that projection was originally built from.  On a
miss it queries the service (outcome supplied as `net`: the matching device
list, or the text of a raised exception — both `RefreshError` and any other
exception are caught and turned into a `None` return), projects the first
matching device through `process_device`, stores the projection, and returns
it (or its first value for a single-field request).  `Projection` keeps the
dict's insertion order. -/

/-- A projected device: insertion-ordered key/value pairs of a Python dict. -/
abbrev Projection := List (String × JSON)

/-- Python `processed[key] = value`: replace in place if the key exists,
append otherwise. -/
def dictInsert (p : Projection) (k : String) (v : JSON) : Projection :=
  if p.any (fun kv => kv.1 = k) then
    p.map (fun kv => if kv.1 = k then (k, v) else kv)
  else p ++ [(k, v)]

/-- `Devices.process_device` (lines 252-258): project the requested keys out
of the raw device record, keeping `None` values only when `include_null`. -/
def process_device (device : JSON) (keys : List String) (include_null : Bool) :
    Projection :=
  keys.foldl (fun acc key =>
    match get_nested_value device key with
    | some v => dictInsert acc key v
    | none => if include_null then dictInsert acc key JSON.null else acc) []

/-- The default field list of `find_device` (lines 302-310), used when no
explicit fields are requested. -/
def default_fields : List String :=
  ["deviceId", "serialNumber", "status", "lastSync", "annotatedUser",
   "annotatedAssetId", "annotatedLocation", "notes", "model", "osVersion",
   "platformVersion", "firmwareVersion", "macAddress", "orgUnitPath",
   "recentUsers", "lastKnownNetwork", "bootMode", "lastEnrollmentTime",
   "supportEndDate", "orderNumber", "willAutoRenew", "meid", "etag",
   "activeTimeRanges", "cpuStatusReports", "diskVolumeReports",
   "systemRamTotal", "systemRamFreeReports"]

/-- The value `find_device` hands back to its caller: a single field value,
a whole projection, or Python `None` (device not found, or an error). -/
inductive FindRet where
  | value (v : JSON)
  | projection (p : Projection)
  | notFound

/-- The device cache: `cache_key ↦ projection`. -/
abbrev DeviceCache := List (String × Projection)

/-- Store into the cache dict. -/
def cacheInsert (c : DeviceCache) (k : String) (p : Projection) : DeviceCache :=
  if c.any (fun kv => kv.1 = k) then
    c.map (fun kv => if kv.1 = k then (k, p) else kv)
  else c ++ [(k, p)]

/-- `Devices.find_device`.  Returns `.error` for the uncaught exceptions
(the `ValueError` of an invalid identifier type, raised before the cache
check, and the `IndexError` of taking the first value of an empty cached
projection, raised outside the `try` block); otherwise `.ok (returned value,
cache after the call, number of remote queries issued)`.  The same
`IndexError` on the fresh-fetch path happens inside the `try` block, where
the broad `except Exception` swallows it and returns `None` — after the
projection was already cached. -/
def find_device (net : Except String (List JSON)) (cache : DeviceCache)
    (identifier : String) (identifier_type : String) (args : List String)
    (include_null : Bool) : Except String (FindRet × DeviceCache × Nat) :=
  if identifier_type ≠ "annotatedAssetId" ∧ identifier_type ≠ "serialNumber" then
    .error "identifier_type must be either annotatedAssetId or serialNumber"
  else
    let cache_key := identifier_type ++ ":" ++ identifier
    match cache.lookup cache_key with
    | some result =>
      if args.length = 1 then
        match result with
        | [] => .error "IndexError"
        | (_, v) :: _ => .ok (.value v, cache, 0)
      else .ok (.projection result, cache, 0)
    | none =>
      match net with
      | .error _ => .ok (.notFound, cache, 1)
      | .ok devices =>
        let fields := if args.isEmpty then default_fields else args
        match devices with
        | [] => .ok (.notFound, cache, 1)
        | device :: _ =>
          let processed := process_device device fields include_null
          let cache2 := cacheInsert cache cache_key processed
          if args.length = 1 then
            match processed with
            | [] => .ok (.notFound, cache2, 1)
            | (_, v) :: _ => .ok (.value v, cache2, 1)
          else .ok (.projection processed, cache2, 1)

/-! ### The Aeries HTTP request executor (`client.py` lines 50-102)

`BaseAeriesClient._make_request` issues one HTTP request and maps every
outcome to an `AeriesResponse`; the only exceptions raised inside the `try`
are `requests` transport errors, which the `except` clause converts to a
response value, so the function's totality models "no exception escapes this
boundary".  The outcome of the transport is the input: an HTTP response
(status, the JSON parse of the body if it parses, and the raw body text) or
a raised transport exception. -/

/-- Payload of a successful response: parsed JSON, or the raw text of a
non-JSON body. -/
inductive RespData where
  | json (j : JSON)
  | text (t : String)

/-- The `AeriesResponse` dataclass: unset optional fields are `none`. -/
structure AeriesResponse where
  success : Bool
  data : Option RespData
  status_code : Option Nat
  message : Option String
  error : Option String

/-- Transport outcome of one HTTP request. -/
inductive HTTPOutcome where
  | response (status : Nat) (parsed : Option JSON) (text : String)
  | exn (msg : String)

/-- `BaseAeriesClient._make_request`. -/
def make_request : HTTPOutcome → AeriesResponse
  | .exn e => ⟨false, none, none, some "Network error occurred", some e⟩
  | .response status parsed text =>
    if status = 200 then
      match parsed with
      | some data => ⟨true, some (.json data), some status, some "Request successful", none⟩
      | none => ⟨true, some (.text text), some status,
          some "Request successful (non-JSON response)", none⟩
    else if status = 404 then
      ⟨false, none, some status, some "Resource not found", some "404 Not Found"⟩
    else
      ⟨false, none, some status,
        some ("Request failed with status " ++ toString status), some text⟩

/-! ## Claim theorems -/

/-- C3: for every batch size `B > 0` (fixed at `MAX_BATCH_SIZE = 50` for the
mutating operations) and every ordered input, the batch partitioner produces
exactly `⌈N/B⌉` sub-sequences, each of size at most `B`, whose in-order
concatenation equals the input (hence contiguous and non-overlapping), and
the empty input yields zero batches. -/
theorem split_into_batches_partition_spec {α : Type} (B : Nat) (hB : 0 < B)
    (l : List α) :
    (split_into_batches B l).length = (l.length + B - 1) / B
    ∧ (∀ c ∈ split_into_batches B l, c.length ≤ B)
    ∧ (split_into_batches B l).flatten = l
    ∧ split_into_batches B ([] : List α) = [] :=
  ⟨split_into_batches_count B hB l, split_into_batches_size B hB l,
    split_into_batches_join B hB l, rfl⟩

/-- Witness for C3 at the concrete mutating-operation batch size 50 and a
concrete input. -/
theorem split_into_batches_partition_spec_witness :
    0 < MAX_BATCH_SIZE
    ∧ ((split_into_batches MAX_BATCH_SIZE ([0, 1, 2] : List Nat)).length
          = (([0, 1, 2] : List Nat).length + MAX_BATCH_SIZE - 1) / MAX_BATCH_SIZE
      ∧ (∀ c ∈ split_into_batches MAX_BATCH_SIZE ([0, 1, 2] : List Nat),
          c.length ≤ MAX_BATCH_SIZE)
      ∧ (split_into_batches MAX_BATCH_SIZE ([0, 1, 2] : List Nat)).flatten = [0, 1, 2]
      ∧ split_into_batches MAX_BATCH_SIZE ([] : List Nat) = []) :=
  ⟨by decide,
    split_into_batches_partition_spec MAX_BATCH_SIZE (by decide) [0, 1, 2]⟩

/-- C4: `_make_request` maps every transport outcome to a response value and
no exception escapes it (the function is total on the outcome space): 200
with parseable JSON gives success with the parsed body; 200 with a non-JSON
body gives success with the raw text; 404 gives failure with status 404 and
message `Resource not found`; any other non-200 gives failure with the
status code and the raw body as error; a transport exception gives failure
with message `Network error occurred`, the exception text as error, and no
status code. -/
theorem make_request_outcome_mapping (code : Nat) (j : JSON) (p : Option JSON)
    (text e : String) (h200 : code ≠ 200) (h404 : code ≠ 404) :
    make_request (.response 200 (some j) text)
      = ⟨true, some (.json j), some 200, some "Request successful", none⟩
    ∧ make_request (.response 200 none text)
      = ⟨true, some (.text text), some 200,
          some "Request successful (non-JSON response)", none⟩
    ∧ make_request (.response 404 p text)
      = ⟨false, none, some 404, some "Resource not found", some "404 Not Found"⟩
    ∧ make_request (.response code p text)
      = ⟨false, none, some code,
          some ("Request failed with status " ++ toString code), some text⟩
    ∧ make_request (.exn e)
      = ⟨false, none, none, some "Network error occurred", some e⟩ := by
  refine ⟨rfl, rfl, ?_, ?_, rfl⟩
  · simp [make_request]
  · simp [make_request, h200, h404]

/-- Witness for C4 at status 500 and concrete bodies. -/
theorem make_request_outcome_mapping_witness :
    (500 : Nat) ≠ 200 ∧ (500 : Nat) ≠ 404
    ∧ (make_request (.response 200 (some JSON.null) "body")
        = ⟨true, some (.json JSON.null), some 200, some "Request successful", none⟩
      ∧ make_request (.response 200 none "body")
        = ⟨true, some (.text "body"), some 200,
            some "Request successful (non-JSON response)", none⟩
      ∧ make_request (.response 404 none "body")
        = ⟨false, none, some 404, some "Resource not found", some "404 Not Found"⟩
      ∧ make_request (.response 500 none "body")
        = ⟨false, none, some 500,
            some ("Request failed with status " ++ toString 500), some "body"⟩
      ∧ make_request (.exn "boom")
        = ⟨false, none, none, some "Network error occurred", some "boom"⟩) :=
  ⟨by decide, by decide,
    make_request_outcome_mapping 500 JSON.null none "body" "boom"
      (by decide) (by decide)⟩

/-- Discriminator for JSON objects, used to state which values are not
traversable by `get_nested_value`. -/
def JSON.isObj : JSON → Bool
  | .obj _ => true
  | _ => false

/-- C10: nested dot-notation extraction is a total function (it terminates
on every record and key by construction) and returns `none` — Python `None`,
not an error — whenever an intermediate key is missing from a dict or the
current value is not traversable (null, scalar, empty list, or a list whose
first element is not a dict). -/
theorem get_nested_value_total_and_null_on_broken_path
    (fields : List (String × JSON)) (k : String) (ks : List String)
    (b : Bool) (n : Int) (s : String)
    (hmiss : fields.lookup k = none) :
    (∀ data key, get_nested_value data key = get_nested_value_go data (splitDots key))
    ∧ get_nested_value_go (.obj fields) (k :: ks) = none
    ∧ get_nested_value_go .null (k :: ks) = none
    ∧ get_nested_value_go (.bool b) (k :: ks) = none
    ∧ get_nested_value_go (.num n) (k :: ks) = none
    ∧ get_nested_value_go (.str s) (k :: ks) = none
    ∧ get_nested_value_go (.arr []) (k :: ks) = none
    ∧ (∀ x xs, x.isObj = false →
        get_nested_value_go (.arr (x :: xs)) (k :: ks) = none) := by
  refine ⟨fun _ _ => rfl, ?_, rfl, rfl, rfl, rfl, rfl, ?_⟩
  · simp [get_nested_value_go, objGet, hmiss]
  · intro x xs hx
    cases x <;> simp_all [JSON.isObj, get_nested_value_go]

/-- Witness for C10 at a concrete record missing the requested key. -/
theorem get_nested_value_broken_path_witness :
    ([("a", JSON.num 1)] : List (String × JSON)).lookup "b" = none
    ∧ ((∀ data key, get_nested_value data key = get_nested_value_go data (splitDots key))
      ∧ get_nested_value_go (.obj [("a", JSON.num 1)]) ["b"] = none
      ∧ get_nested_value_go .null ["b"] = none
      ∧ get_nested_value_go (.bool true) ["b"] = none
      ∧ get_nested_value_go (.num 0) ["b"] = none
      ∧ get_nested_value_go (.str "x") ["b"] = none
      ∧ get_nested_value_go (.arr []) ["b"] = none
      ∧ (∀ x xs, x.isObj = false →
          get_nested_value_go (.arr (x :: xs)) ["b"] = none)) :=
  ⟨rfl,
    get_nested_value_total_and_null_on_broken_path [("a", JSON.num 1)] "b" []
      true 0 "x" rfl⟩

/-- C9: every `user_session_delay_seconds` outside `[0, 300]` makes
`reboot_devices` raise the validation `ValueError` before identifier
resolution, before any batch is formed, and before any network call: the
result is the error value and is independent of the lookup and
attempt-outcome environments, so zero network calls are issued. -/
theorem reboot_devices_rejects_out_of_range_delay
    (find find2 : String → Option DeviceInfo)
    (att att2 : String → Nat → RebootAttempt) (devices devices2 : List String)
    (delay : Int) (h : delay < 0 ∨ 300 < delay) :
    reboot_devices find att devices delay
      = .error "user_session_delay_seconds must be an integer between 0 and 300."
    ∧ reboot_devices find att devices delay
      = reboot_devices find2 att2 devices2 delay := by
  have hc : ¬(0 ≤ delay ∧ delay ≤ 300) := by omega
  constructor
  · simp only [reboot_devices, if_pos hc]
  · simp only [reboot_devices, if_pos hc]

/-- The retry loop never consults attempt outcomes beyond its remaining
fuel: two environments that agree on attempts `attempt ..< attempt + rem`
produce identical executions.  Instantiated at `attempt = 0`,
`rem = MAX_RETRIES`, this is "the per-batch operation is executed at most
`MAX_RETRIES` times". -/
theorem process_batch_go_congr (att att2 : Nat → Except String Unit)
    (batch : List DeviceInfo) (t : String) :
    ∀ (rem attempt : Nat),
      (∀ i, attempt ≤ i → i < attempt + rem → att i = att2 i) →
      process_batch_go att batch t attempt rem
        = process_batch_go att2 batch t attempt rem := by
  intro rem
  induction rem with
  | zero => intro attempt _; rfl
  | succ r ih =>
    intro attempt h
    have h0 : att attempt = att2 attempt := h attempt (Nat.le_refl _) (by omega)
    simp only [process_batch_go, h0]
    cases hval : att2 attempt with
    | ok u => rfl
    | error e =>
      simp only [move_batch]
      by_cases hr : r = 0
      · simp [hr]
      · simp only [hr, if_false]
        rw [ih (attempt + 1) (fun i hi1 hi2 => h i (by omega) (by omega))]

/-- Number of records carried by a batch result (all of one batch lands on a
single side). -/
def batch_result_len : BatchResult → Nat
  | .success s => s.length
  | .failure f => f.length

/-- Each processed batch reports exactly one record per batch item, whether
it succeeded or exhausted its retries. -/
theorem process_batch_go_len (att : Nat → Except String Unit)
    (batch : List DeviceInfo) (t : String) :
    ∀ (rem attempt : Nat),
      batch_result_len (process_batch_go att batch t attempt (rem + 1)).result
        = batch.length := by
  intro rem
  induction rem with
  | zero =>
    intro attempt
    cases hval : att attempt with
    | ok u => simp [process_batch_go, move_batch, hval, batch_result_len]
    | error e => simp [process_batch_go, move_batch, hval, batch_result_len]
  | succ r ih =>
    intro attempt
    cases hval : att attempt with
    | ok u => simp [process_batch_go, move_batch, hval, batch_result_len]
    | error e =>
      simp only [process_batch_go, move_batch, hval]
      rw [if_neg (by omega : ¬(r + 1 = 0))]
      exact ih (attempt + 1)

/-- `process_batch` instance of the per-batch record count. -/
theorem process_batch_len (att : Nat → Except String Unit)
    (batch : List DeviceInfo) (t : String) :
    batch_result_len (process_batch att batch t).result = batch.length :=
  process_batch_go_len att batch t 2 0

/-- Merging the per-batch results counts every batch item exactly once. -/
theorem merged_exec_counts (att : Nat → Nat → Except String Unit) (t : String) :
    ∀ (bs : List (Nat × List DeviceInfo)),
      (merge_batch_results ((bs.map fun p => process_batch (att p.1) p.2 t).map
          fun e => e.result)).success.length
        + (merge_batch_results ((bs.map fun p => process_batch (att p.1) p.2 t).map
          fun e => e.result)).failure.length
        = (bs.map fun p => p.2.length).sum := by
  intro bs
  induction bs with
  | nil => rfl
  | cons p rest ih =>
    simp only [List.map_cons, List.sum_cons]
    have hlen := process_batch_len (att p.1) p.2 t
    cases hres : (process_batch (att p.1) p.2 t).result with
    | success s =>
      rw [hres] at hlen
      simp only [batch_result_len] at hlen
      simp only [merge_batch_results, List.length_append]
      omega
    | failure f =>
      rw [hres] at hlen
      simp only [batch_result_len] at hlen
      simp only [merge_batch_results, List.length_append]
      omega

/-- `move_devices_to_ou` reports exactly one record per resolved device:
success plus failure counts sum to the length of the resolved device list. -/
theorem move_report_counts {ι : Type} (find : ι → Option DeviceInfo)
    (att : Nat → Nat → Except String Unit) (devices : List ι) (target_ou : String) :
    (move_devices_to_ou find att devices target_ou).1.success.length
      + (move_devices_to_ou find att devices target_ou).1.failure.length
      = (get_device_info find devices).length := by
  simp only [move_devices_to_ou]
  rw [merged_exec_counts]
  have h1 : ((split_into_batches MAX_BATCH_SIZE (get_device_info find devices)).enum.map
      fun p => p.2.length)
      = ((split_into_batches MAX_BATCH_SIZE (get_device_info find devices)).enum.map
          Prod.snd).map List.length := by
    rw [List.map_map]; rfl
  rw [h1, List.enum_map_snd, ← List.length_flatten,
    split_into_batches_join MAX_BATCH_SIZE (by decide)]

/-- Every completed deprovision outcome lands in exactly one of the three
response lists. -/
theorem deprov_counts (outcomes : List (DeviceInfo × Except String DeprovRecord)) :
    (deprov_successes outcomes).length + (deprov_already outcomes).length
      + (deprov_failures outcomes).length = outcomes.length := by
  induction outcomes with
  | nil => rfl
  | cons p rest ih =>
    cases hp : p.2 with
    | ok rec =>
      by_cases hs : rec.status = "Already deprovisioned" <;>
        simp [deprov_successes, deprov_already, deprov_failures, hp, hs,
          List.filterMap_cons] at ih ⊢ <;>
        omega
    | error e =>
      simp [deprov_successes, deprov_already, deprov_failures, hp,
        List.filterMap_cons] at ih ⊢
      omega

/-- `deprovision` reports exactly one record per resolved device. -/
theorem deprovision_counts (find : String → Option DeviceInfo)
    (attD : String → Nat → Except String Unit)
    (findM : Option String → Option DeviceInfo) (attM : Nat → Nat → Except String Unit)
    (devices : List String) (target_opt : Option String) :
    (deprovision find attD findM attM devices target_opt).success.length
      + (deprovision find attD findM attM devices target_opt).already_deprovisioned.length
      + (deprovision find attD findM attM devices target_opt).failure.length
      = (get_device_info find devices).length := by
  have base := deprov_counts ((get_device_info find devices).map
    (fun d => (d, process_deprovision_device (attD d.deviceId) d)))
  rw [List.length_map] at base
  cases target_opt with
  | none =>
    simp only [deprovision]
    simpa using base
  | some t =>
    simp only [deprovision]
    by_cases hc : t ≠ "" ∧ deprov_successes ((get_device_info find devices).map
        (fun d => (d, process_deprovision_device (attD d.deviceId) d))) ≠ []
    · rw [if_pos hc]
      simpa using base
    · rw [if_neg hc]
      simpa using base

/-- Every device of a reboot batch lands in exactly one of the two lists. -/
theorem process_reboot_batch_counts (att : String → Nat → RebootAttempt)
    (batch : List DeviceInfo) :
    (process_reboot_batch att batch).success.length
      + (process_reboot_batch att batch).failure.length = batch.length := by
  induction batch with
  | nil => rfl
  | cons d rest ih =>
    simp only [process_reboot_batch, List.foldr_cons] at ih ⊢
    cases h : process_reboot_device (att d.deviceId) d with
    | ok r => simp only [h, List.length_cons]; omega
    | error e => simp only [h, List.length_cons]; omega

/-- Folding the per-batch reboot reports counts every batch item once. -/
theorem reboot_fold_counts (att : String → Nat → RebootAttempt) :
    ∀ (bs : List (List DeviceInfo)),
      ((bs.foldr (fun b acc =>
          let r := process_reboot_batch att b
          (⟨r.success ++ acc.success, r.failure ++ acc.failure⟩ : RebootReport))
        ⟨[], []⟩).success.length
        + (bs.foldr (fun b acc =>
          let r := process_reboot_batch att b
          (⟨r.success ++ acc.success, r.failure ++ acc.failure⟩ : RebootReport))
        ⟨[], []⟩).failure.length)
      = (bs.map List.length).sum := by
  intro bs
  induction bs with
  | nil => rfl
  | cons b rest ih =>
    have hb := process_reboot_batch_counts att b
    simp only [List.foldr_cons, List.map_cons, List.sum_cons,
      List.length_append] at ih ⊢
    omega

/-- C1 (amended): each batch orchestration operation reports every
*resolved* input device in exactly one outcome sequence — for
`move_devices_to_ou`, success + failure counts sum to the number of input
identifiers that resolve to a device record (already-in-OU devices are
reported under success; there is no separate sequence for them); for
`deprovision`, success + already-deprovisioned + failure counts sum to the
resolved count; for `reboot_devices`, success + failure counts sum to the
resolved count.  Identifiers that fail resolution are dropped from the
report with only a warning log. -/
theorem batch_reports_partition_resolved_devices
    (find : String → Option DeviceInfo) (attB : Nat → Nat → Except String Unit)
    (attD : String → Nat → Except String Unit)
    (findM : Option String → Option DeviceInfo)
    (attM : Nat → Nat → Except String Unit) (attR : String → Nat → RebootAttempt)
    (devices : List String) (target_ou : String) (target_opt : Option String)
    (delay : Int) :
    ((move_devices_to_ou find attB devices target_ou).1.success.length
      + (move_devices_to_ou find attB devices target_ou).1.failure.length
      = (get_device_info find devices).length)
    ∧ ((deprovision find attD findM attM devices target_opt).success.length
      + (deprovision find attD findM attM devices target_opt).already_deprovisioned.length
      + (deprovision find attD findM attM devices target_opt).failure.length
      = (get_device_info find devices).length)
    ∧ (∀ rep, reboot_devices find attR devices delay = .ok rep →
        rep.success.length + rep.failure.length
          = (get_device_info find devices).length) := by
  refine ⟨move_report_counts find attB devices target_ou,
    deprovision_counts find attD findM attM devices target_opt, ?_⟩
  intro rep hrep
  by_cases hv : ¬(0 ≤ delay ∧ delay ≤ 300)
  · simp only [reboot_devices, if_pos hv] at hrep
    exact absurd hrep (by simp)
  · simp only [reboot_devices, if_neg hv, Except.ok.injEq] at hrep
    subst hrep
    rw [reboot_fold_counts, ← List.length_flatten,
      split_into_batches_join MAX_BATCH_SIZE (by decide)]

/-- Environment for the C1 witness: only identifier `A` resolves. -/
def findC1 : String → Option DeviceInfo :=
  fun s => if s = "A" then some ⟨"idA", some "A1", "/O", "ACTIVE"⟩ else none

/-- Witness for C1 (amended) at a concrete two-identifier input of which one
resolves, discharging the reboot conjunct at the concretely computed
report. -/
theorem batch_reports_partition_resolved_devices_witness :
    ((move_devices_to_ou findC1 (fun _ _ => .ok ()) ["A", "B"] "X").1.success.length
      + (move_devices_to_ou findC1 (fun _ _ => .ok ()) ["A", "B"] "X").1.failure.length
      = (get_device_info findC1 ["A", "B"]).length)
    ∧ ((deprovision findC1 (fun _ _ => .ok ()) (fun _ => none) (fun _ _ => .ok ())
          ["A", "B"] (some "R")).success.length
      + (deprovision findC1 (fun _ _ => .ok ()) (fun _ => none) (fun _ _ => .ok ())
          ["A", "B"] (some "R")).already_deprovisioned.length
      + (deprovision findC1 (fun _ _ => .ok ()) (fun _ => none) (fun _ _ => .ok ())
          ["A", "B"] (some "R")).failure.length
      = (get_device_info findC1 ["A", "B"]).length)
    ∧ ((⟨[⟨"idA", some "A1", "REBOOT command sent", none⟩], []⟩ : RebootReport).success.length
      + (⟨[⟨"idA", some "A1", "REBOOT command sent", none⟩], []⟩ : RebootReport).failure.length
      = (get_device_info findC1 ["A", "B"]).length) := by
  have h := batch_reports_partition_resolved_devices findC1 (fun _ _ => .ok ())
    (fun _ _ => .ok ()) (fun _ => none) (fun _ _ => .ok ()) (fun _ _ => .ok none)
    ["A", "B"] "X" (some "R") 0
  exact ⟨h.1, h.2.1,
    h.2.2 ⟨[⟨"idA", some "A1", "REBOOT command sent", none⟩], []⟩ rfl⟩

/-- C1 counterexample: with input `["A"]` where the identifier does not
resolve to a device, `move_devices_to_ou` returns a report whose success and
failure counts sum to 0, not to the input length 1 — the input item is
silently dropped, refuting the claim as stated. -/
theorem move_report_drops_unresolved_input :
    ((move_devices_to_ou (fun _ : String => (none : Option DeviceInfo))
        (fun _ _ => .ok ()) ["A"] "X").1.success.length
      + (move_devices_to_ou (fun _ : String => (none : Option DeviceInfo))
        (fun _ _ => .ok ()) ["A"] "X").1.failure.length = 0)
    ∧ (0 : Nat) ≠ (["A"] : List String).length :=
  ⟨rfl, by decide⟩

/-- C2: `process_batch` executes the (decorated) per-batch operation at most
`MAX_RETRIES = 3` times — its execution depends only on the outcomes of
attempts 0, 1 and 2 — sleeping the fixed `RETRY_DELAY = 1` between
consecutive attempts; when some attempt succeeds the result is the success
list (no failure record is emitted) with one sleep per preceding failed
attempt; when every attempt fails it returns (rather than propagates)
exactly one failure record per batch item, carrying the last attempt's
exception text. -/
theorem process_batch_retry_contract (att : Nat → Except String Unit)
    (batch : List DeviceInfo) (target : String) (e0 e1 e2 : String) :
    (∀ att2 : Nat → Except String Unit,
      (∀ i, i < MAX_RETRIES → att i = att2 i) →
      process_batch att batch target = process_batch att2 batch target)
    ∧ (att 0 = .ok () →
        (process_batch att batch target).result
            = .success (batch.map (fun d => ⟨d.deviceId, d.annotatedAssetId, target⟩))
          ∧ (process_batch att batch target).sleeps = [])
    ∧ (att 0 = .error e0 → att 1 = .ok () →
        (process_batch att batch target).result
            = .success (batch.map (fun d => ⟨d.deviceId, d.annotatedAssetId, target⟩))
          ∧ (process_batch att batch target).sleeps = [RETRY_DELAY])
    ∧ (att 0 = .error e0 → att 1 = .error e1 → att 2 = .ok () →
        (process_batch att batch target).result
            = .success (batch.map (fun d => ⟨d.deviceId, d.annotatedAssetId, target⟩))
          ∧ (process_batch att batch target).sleeps = [RETRY_DELAY, RETRY_DELAY])
    ∧ (att 0 = .error e0 → att 1 = .error e1 → att 2 = .error e2 →
        (process_batch att batch target).result
            = .failure (batch.map (fun d => ⟨d.deviceId, d.annotatedAssetId, e2⟩))
          ∧ (batch.map (fun d => (⟨d.deviceId, d.annotatedAssetId, e2⟩ : FailRecord))).length
              = batch.length
          ∧ (process_batch att batch target).sleeps = [RETRY_DELAY, RETRY_DELAY]) := by
  refine ⟨?_, ?_, ?_, ?_, ?_⟩
  · intro att2 h
    exact process_batch_go_congr att att2 batch target MAX_RETRIES 0
      (fun i _ hi2 => h i (by omega))
  · intro h0
    constructor <;>
      simp [process_batch, MAX_RETRIES, process_batch_go, move_batch, h0]
  · intro h0 h1
    constructor <;>
      simp [process_batch, MAX_RETRIES, process_batch_go, move_batch, h0, h1]
  · intro h0 h1 h2
    constructor <;>
      simp [process_batch, MAX_RETRIES, process_batch_go, move_batch, h0, h1, h2]
  · intro h0 h1 h2
    refine ⟨?_, List.length_map _ _, ?_⟩ <;>
      simp [process_batch, MAX_RETRIES, process_batch_go, move_batch, h0, h1, h2]

/-- C5 (amended): a device whose current org-unit path already equals
`'/' + target` is still included in the bulk `moveDevicesToOu` request body
like every other batch member — the mutating call is issued for the whole
batch before any path comparison happens; when the batch call succeeds the
device is logged with the `exists` marker ("already in target OU") and is
reported under success. -/
theorem move_batch_already_in_ou_logged_and_succeeds
    (att : Nat → Except String Unit) (batch : List DeviceInfo) (target : String)
    (d : DeviceInfo) (hd : d ∈ batch) (hou : d.orgUnitPath = "/" ++ target)
    (hok : att 0 = .ok ()) :
    (process_batch att batch target).calls = [⟨target, batch.map (fun x => x.deviceId)⟩]
    ∧ d.deviceId ∈ batch.map (fun x => x.deviceId)
    ∧ (process_batch att batch target).result
        = .success (batch.map (fun x => ⟨x.deviceId, x.annotatedAssetId, target⟩))
    ∧ (⟨d.deviceId, d.annotatedAssetId, target⟩ : MoveSuccessRecord)
        ∈ batch.map (fun x => (⟨x.deviceId, x.annotatedAssetId, target⟩ : MoveSuccessRecord))
    ∧ ("move:[" ++ d.orgUnitPath ++ "]:exists:" ++ assetText d.annotatedAssetId)
        ∈ (process_batch att batch target).logs := by
  refine ⟨?_, List.mem_map_of_mem _ hd, ?_, List.mem_map_of_mem _ hd, ?_⟩
  · simp [process_batch, MAX_RETRIES, process_batch_go, move_batch, hok]
  · simp [process_batch, MAX_RETRIES, process_batch_go, move_batch, hok]
  · have hlogs : (process_batch att batch target).logs = batch.map (move_log target) := by
      simp [process_batch, MAX_RETRIES, process_batch_go, move_batch, hok]
    have hline : move_log target d
        = "move:[" ++ d.orgUnitPath ++ "]:exists:" ++ assetText d.annotatedAssetId := by
      simp [move_log, hou]
    rw [hlogs, ← hline]
    exact List.mem_map_of_mem _ hd

/-- Witness environment for C5: one device already sitting in the target OU. -/
def findC5 : String → Option DeviceInfo :=
  fun s => if s = "A" then some ⟨"idA", some "A1", "/Chromebooks/X", "ACTIVE"⟩ else none

/-- Witness for C5 (amended) at a concrete one-device batch already in the
target OU. -/
theorem move_batch_already_in_ou_witness :
    ((⟨"idA", some "A1", "/Chromebooks/X", "ACTIVE"⟩ : DeviceInfo)
        ∈ [(⟨"idA", some "A1", "/Chromebooks/X", "ACTIVE"⟩ : DeviceInfo)])
    ∧ ((⟨"idA", some "A1", "/Chromebooks/X", "ACTIVE"⟩ : DeviceInfo).orgUnitPath
        = "/" ++ "Chromebooks/X")
    ∧ (process_batch (fun _ => .ok ()) [⟨"idA", some "A1", "/Chromebooks/X", "ACTIVE"⟩]
          "Chromebooks/X").calls
        = [⟨"Chromebooks/X",
            [(⟨"idA", some "A1", "/Chromebooks/X", "ACTIVE"⟩ : DeviceInfo)].map
              (fun x => x.deviceId)⟩]
    ∧ ("move:[" ++ "/Chromebooks/X" ++ "]:exists:" ++ assetText (some "A1"))
        ∈ (process_batch (fun _ => .ok ()) [⟨"idA", some "A1", "/Chromebooks/X", "ACTIVE"⟩]
          "Chromebooks/X").logs := by
  have h := move_batch_already_in_ou_logged_and_succeeds (fun _ => .ok ())
    [⟨"idA", some "A1", "/Chromebooks/X", "ACTIVE"⟩] "Chromebooks/X"
    ⟨"idA", some "A1", "/Chromebooks/X", "ACTIVE"⟩ (by decide) rfl rfl
  exact ⟨by decide, rfl, h.1, h.2.2.2.2⟩

/-- C5 counterexample: with device `A` already in the normalized target OU
(its `orgUnitPath` is `/Chromebooks/X` and the target `X` normalizes to
`Chromebooks/X`), `move_devices_to_ou` still issues one mutating
`moveDevicesToOu` request whose body carries that device's id — not zero
mutating network calls for the device — while logging the `exists` line. -/
theorem move_includes_already_in_ou_device_in_request :
    (move_devices_to_ou findC5 (fun _ _ => .ok ()) ["A"] "X").2.1
      = [⟨"Chromebooks/X", ["idA"]⟩]
    ∧ "idA" ∈ (⟨"Chromebooks/X", ["idA"]⟩ : MoveCall).deviceIds
    ∧ (move_devices_to_ou findC5 (fun _ _ => .ok ()) ["A"] "X").2.2
      = ["move:[/Chromebooks/X]:exists:A1"] :=
  ⟨rfl, by decide, rfl⟩

/-- Under the scenario hypotheses "every resolved device is not yet
deprovisioned and its first deprovision attempt succeeds", phase one files
every resolved device under `success` with status `Deprovisioned` and
nothing under the other two lists. -/
theorem deprov_all_ok (attD : String → Nat → Except String Unit)
    (infos : List DeviceInfo)
    (h : ∀ d ∈ infos, d.status ≠ "DEPROVISIONED" ∧ attD d.deviceId 0 = .ok ()) :
    deprov_successes (infos.map (fun d => (d, process_deprovision_device (attD d.deviceId) d)))
      = infos.map (fun d => ⟨d.deviceId, d.annotatedAssetId, "Deprovisioned"⟩)
    ∧ deprov_already (infos.map (fun d => (d, process_deprovision_device (attD d.deviceId) d)))
      = []
    ∧ deprov_failures (infos.map (fun d => (d, process_deprovision_device (attD d.deviceId) d)))
      = [] := by
  induction infos with
  | nil => exact ⟨rfl, rfl, rfl⟩
  | cons d rest ih =>
    obtain ⟨hstat, hatt⟩ := h d (List.mem_cons_self d rest)
    have hrec : process_deprovision_device (attD d.deviceId) d
        = .ok ⟨d.deviceId, d.annotatedAssetId, "Deprovisioned"⟩ := by
      simp [process_deprovision_device, hstat, MAX_RETRIES,
        process_deprovision_go, hatt]
    have ih' := ih (fun x hx => h x (List.mem_cons_of_mem d hx))
    refine ⟨?_, ?_, ?_⟩ <;>
      simp [deprov_successes, deprov_already, deprov_failures,
        List.filterMap_cons, hrec, ih'.1, ih'.2.1, ih'.2.2] <;>
      simp [deprov_successes, deprov_already, deprov_failures] at ih' <;>
      tauto

/-- C6 (amended): phase two of `deprovision` runs exactly when a non-empty
target OU is given and at least one device *newly* succeeded in phase one —
not only when all of them did; devices filed as already-deprovisioned or
failed are excluded.  When phase two runs, the move call receives exactly
the `annotatedAssetId`s of the phase-one success records, in order, and the
`move_*` keys carry that call's report.  In the all-succeed scenario every
resolved device's identifier is passed, so 60 resolved devices that all
newly succeed pass exactly 60 identifiers. -/
theorem deprovision_phase_two_contract (find : String → Option DeviceInfo)
    (attD : String → Nat → Except String Unit)
    (findM : Option String → Option DeviceInfo)
    (attM : Nat → Nat → Except String Unit) (devices : List String)
    (t : String) (ht : t ≠ "") :
    ((deprovision find attD findM attM devices (some t)).movePassed.isSome
      ↔ (deprovision find attD findM attM devices (some t)).success ≠ [])
    ∧ ((deprovision find attD findM attM devices (some t)).success ≠ [] →
        (deprovision find attD findM attM devices (some t)).movePassed
          = some ((deprovision find attD findM attM devices (some t)).success.map
              (fun r => r.annotatedAssetId))
        ∧ (deprovision find attD findM attM devices (some t)).move_success
          = (move_devices_to_ou findM attM
              ((deprovision find attD findM attM devices (some t)).success.map
                (fun r => r.annotatedAssetId)) t).1.success
        ∧ (deprovision find attD findM attM devices (some t)).move_failure
          = (move_devices_to_ou findM attM
              ((deprovision find attD findM attM devices (some t)).success.map
                (fun r => r.annotatedAssetId)) t).1.failure)
    ∧ ((deprovision find attD findM attM devices (some t)).success = [] →
        (deprovision find attD findM attM devices (some t)).movePassed = none)
    ∧ (get_device_info find devices ≠ [] →
        (∀ d ∈ get_device_info find devices,
          d.status ≠ "DEPROVISIONED" ∧ attD d.deviceId 0 = .ok ()) →
        (deprovision find attD findM attM devices (some t)).failure = []
        ∧ (deprovision find attD findM attM devices (some t)).movePassed
          = some ((get_device_info find devices).map (fun d => d.annotatedAssetId))) := by
  by_cases hs : deprov_successes ((get_device_info find devices).map
      (fun d => (d, process_deprovision_device (attD d.deviceId) d))) ≠ []
  · have hc : t ≠ "" ∧ deprov_successes ((get_device_info find devices).map
        (fun d => (d, process_deprovision_device (attD d.deviceId) d))) ≠ [] := ⟨ht, hs⟩
    refine ⟨?_, ?_, ?_, ?_⟩
    · simp [deprovision, if_pos hc]
      exact hs
    · intro _
      refine ⟨?_, ?_, ?_⟩ <;> simp [deprovision, if_pos hc]
    · intro hnil
      simp [deprovision, if_pos hc] at hnil
      exact absurd hnil hs
    · intro hne hall
      obtain ⟨h1, _, h3⟩ := deprov_all_ok attD (get_device_info find devices) hall
      refine ⟨?_, ?_⟩
      · simp only [deprovision]
        rw [if_pos hc]
        simpa using h3
      · simp only [deprovision]
        rw [if_pos hc]
        simp only [h1, List.map_map]
        rfl
  · have hc : ¬(t ≠ "" ∧ deprov_successes ((get_device_info find devices).map
        (fun d => (d, process_deprovision_device (attD d.deviceId) d))) ≠ []) := by
      tauto
    push_neg at hs
    refine ⟨?_, ?_, ?_, ?_⟩
    · simp [deprovision, if_neg hc, hs]
    · intro hne
      simp [deprovision, if_neg hc] at hne
      exact absurd hne (by simp [hs])
    · intro _
      simp [deprovision, if_neg hc]
    · intro hne hall
      obtain ⟨h1, _, _⟩ := deprov_all_ok attD (get_device_info find devices) hall
      rw [h1] at hs
      have : get_device_info find devices = [] := by
        cases hdev : get_device_info find devices with
        | nil => rfl
        | cons x xs => rw [hdev] at hs; simp at hs
      exact absurd this hne

/-- Witness environments for C6: two resolvable identifiers, the first of
which fails all its deprovision attempts. -/
def findC6 : String → Option DeviceInfo := fun s =>
  if s = "A" then some ⟨"idA", some "A", "/O", "ACTIVE"⟩
  else if s = "B" then some ⟨"idB", some "B", "/O", "ACTIVE"⟩ else none

/-- Attempt outcomes for the C6 counterexample: device `idA` always fails
with an exception that is not an illegal-transition message. -/
def attC6 : String → Nat → Except String Unit := fun id _ =>
  if id = "idA" then .error "boom" else .ok ()

/-- Witness for C6 (amended) at a concrete all-succeed input. -/
theorem deprovision_phase_two_contract_witness :
    ("Repair" : String) ≠ ""
    ∧ ((deprovision findC6 (fun _ _ => .ok ()) (fun _ => none) (fun _ _ => .ok ())
          ["A", "B"] (some "Repair")).success ≠ []
      → (deprovision findC6 (fun _ _ => .ok ()) (fun _ => none) (fun _ _ => .ok ())
          ["A", "B"] (some "Repair")).movePassed
        = some ((deprovision findC6 (fun _ _ => .ok ()) (fun _ => none) (fun _ _ => .ok ())
            ["A", "B"] (some "Repair")).success.map (fun r => r.annotatedAssetId))
        ∧ (deprovision findC6 (fun _ _ => .ok ()) (fun _ => none) (fun _ _ => .ok ())
          ["A", "B"] (some "Repair")).move_success
          = (move_devices_to_ou (fun _ => none) (fun _ _ => .ok ())
              ((deprovision findC6 (fun _ _ => .ok ()) (fun _ => none) (fun _ _ => .ok ())
                ["A", "B"] (some "Repair")).success.map (fun r => r.annotatedAssetId))
              "Repair").1.success
        ∧ (deprovision findC6 (fun _ _ => .ok ()) (fun _ => none) (fun _ _ => .ok ())
          ["A", "B"] (some "Repair")).move_failure
          = (move_devices_to_ou (fun _ => none) (fun _ _ => .ok ())
              ((deprovision findC6 (fun _ _ => .ok ()) (fun _ => none) (fun _ _ => .ok ())
                ["A", "B"] (some "Repair")).success.map (fun r => r.annotatedAssetId))
              "Repair").1.failure)
    ∧ (deprovision findC6 (fun _ _ => .ok ()) (fun _ => none) (fun _ _ => .ok ())
          ["A", "B"] (some "Repair")).failure = [] :=
  ⟨by decide,
    (deprovision_phase_two_contract findC6 (fun _ _ => .ok ()) (fun _ => none)
      (fun _ _ => .ok ()) ["A", "B"] "Repair" (by decide)).2.1,
    ((deprovision_phase_two_contract findC6 (fun _ _ => .ok ()) (fun _ => none)
      (fun _ _ => .ok ()) ["A", "B"] "Repair" (by decide)).2.2.2
        (by decide)
        (by
          intro d hd
          have hli : get_device_info findC6 ["A", "B"]
              = [⟨"idA", some "A", "/O", "ACTIVE"⟩, ⟨"idB", some "B", "/O", "ACTIVE"⟩] := rfl
          rw [hli] at hd
          rcases hd with _ | ⟨_, hd2⟩
          · exact ⟨by decide, rfl⟩
          · rcases hd2 with _ | ⟨_, hd3⟩
            · exact ⟨by decide, rfl⟩
            · cases hd3)).1⟩

/-- C6 counterexample: deprovisioning `["A", "B"]` with target OU `Repair`
where `A` fails every attempt and `B` succeeds leaves a non-empty failure
list, yet phase two still runs and receives `B`'s identifier — phase two is
not conditioned on *all* phase-one deprovisions succeeding. -/
theorem deprovision_phase_two_runs_despite_failure :
    (deprovision findC6 attC6 (fun _ => none) (fun _ _ => .ok ()) ["A", "B"]
        (some "Repair")).failure = [⟨"idA", some "A", "boom"⟩]
    ∧ (deprovision findC6 attC6 (fun _ => none) (fun _ _ => .ok ()) ["A", "B"]
        (some "Repair")).movePassed = some [some "B"] :=
  ⟨rfl, rfl⟩

/-- C7 (amended): on a cache hit for `(identifierType, identifier)` —
whatever fields the cached projection was originally built from —
`find_device` issues zero network calls (the result is independent of the
remote-call outcome and of `include_null`, and the reported call count is 0),
leaves the cache unchanged, and returns the whole cached projection of the
original fetch when the current request names zero or several fields, or the
*first value of the cached projection* when exactly one field is requested —
which is the requested field's value only when the cached projection was
built from that same single field. -/
theorem find_device_cache_hit_contract (net net2 : Except String (List JSON))
    (cache : DeviceCache) (id t : String) (args : List String)
    (inc inc2 : Bool) (p : Projection)
    (ht : t = "annotatedAssetId" ∨ t = "serialNumber")
    (hhit : cache.lookup (t ++ ":" ++ id) = some p) :
    find_device net cache id t args inc = find_device net2 cache id t args inc2
    ∧ (args.length ≠ 1 →
        find_device net cache id t args inc = .ok (.projection p, cache, 0))
    ∧ (∀ k v rest, p = (k, v) :: rest → args.length = 1 →
        find_device net cache id t args inc = .ok (.value v, cache, 0)) := by
  have hvalid : ¬(t ≠ "annotatedAssetId" ∧ t ≠ "serialNumber") := by
    rcases ht with h | h <;> simp [h]
  refine ⟨?_, ?_, ?_⟩
  · simp [find_device, hvalid, hhit]
  · intro hargs
    simp [find_device, hvalid, hhit, hargs]
  · intro k v rest hp hargs
    simp [find_device, hvalid, hhit, hargs, hp]

/-- Cache content for the C7 witness: the projection a fetch of the single
field `deviceId` stored. -/
def cacheC7 : DeviceCache := [("annotatedAssetId:A", [("deviceId", JSON.str "idA")])]

/-- Witness for C7 (amended): on a hit, the result ignores the network
environment, and a single-field request returns the first cached value. -/
theorem find_device_cache_hit_contract_witness :
    cacheC7.lookup ("annotatedAssetId" ++ ":" ++ "A")
      = some [("deviceId", JSON.str "idA")]
    ∧ find_device (.ok []) cacheC7 "A" "annotatedAssetId" [] true
      = find_device (.error "boom") cacheC7 "A" "annotatedAssetId" [] false
    ∧ find_device (.ok []) cacheC7 "A" "annotatedAssetId" ["deviceId"] true
      = .ok (.value (JSON.str "idA"), cacheC7, 0) := by
  have h := find_device_cache_hit_contract (.ok []) (.error "boom") cacheC7 "A"
    "annotatedAssetId" [] true false [("deviceId", JSON.str "idA")] (Or.inl rfl) rfl
  have h2 := find_device_cache_hit_contract (.ok []) (.ok []) cacheC7 "A"
    "annotatedAssetId" ["deviceId"] true true [("deviceId", JSON.str "idA")]
    (Or.inl rfl) rfl
  exact ⟨rfl, h.1, h2.2.2 "deviceId" (JSON.str "idA") [] rfl rfl⟩

/-- Remote environment for the C7 counterexample: one matching device whose
`orgUnitPath` is `/X`. -/
def netC7 : Except String (List JSON) :=
  .ok [JSON.obj [("deviceId", JSON.str "idA"), ("notes", JSON.str "n"),
    ("orgUnitPath", JSON.str "/X")]]

/-- C7 counterexample: a fetch of fields `deviceId, notes` populates the
cache for identifier `A`; a later request for exactly the single field
`orgUnitPath` hits the cache (the cache key ignores the requested fields)
and returns the first value of the cached projection — the `deviceId` value
`idA` — and not the device's `orgUnitPath` value `/X`, refuting "when
exactly one field is requested it returns that single field's value". -/
theorem find_device_cache_hit_single_field_mismatch :
    find_device netC7 [] "A" "annotatedAssetId" ["deviceId", "notes"] false
      = .ok (.projection [("deviceId", JSON.str "idA"), ("notes", JSON.str "n")],
          [("annotatedAssetId:A",
            [("deviceId", JSON.str "idA"), ("notes", JSON.str "n")])], 1)
    ∧ find_device netC7
        [("annotatedAssetId:A", [("deviceId", JSON.str "idA"), ("notes", JSON.str "n")])]
        "A" "annotatedAssetId" ["orgUnitPath"] false
      = .ok (.value (JSON.str "idA"),
          [("annotatedAssetId:A",
            [("deviceId", JSON.str "idA"), ("notes", JSON.str "n")])], 0)
    ∧ JSON.str "idA" ≠ JSON.str "/X" := by
  refine ⟨rfl, rfl, ?_⟩
  intro h
  injection h with h2
  exact absurd h2 (by decide)

/-- C8 (amended): `find_device` returns the canonical Python `None`
(`.notFound`) both when the remote query yields zero matches and when the
remote call raises (credential refresh failure or any other exception): the
not-found sentinel is *not* distinct from the error-outcome return value; it
is distinct only from the successful value/projection returns. -/
theorem find_device_none_on_empty_and_error (cache : DeviceCache)
    (id t e : String) (args : List String) (inc : Bool)
    (ht : t = "annotatedAssetId" ∨ t = "serialNumber")
    (hmiss : cache.lookup (t ++ ":" ++ id) = none) :
    find_device (.ok []) cache id t args inc = .ok (.notFound, cache, 1)
    ∧ find_device (.error e) cache id t args inc = .ok (.notFound, cache, 1)
    ∧ (∀ v, FindRet.notFound ≠ .value v)
    ∧ (∀ p, FindRet.notFound ≠ .projection p) := by
  have hvalid : ¬(t ≠ "annotatedAssetId" ∧ t ≠ "serialNumber") := by
    rcases ht with h | h <;> simp [h]
  refine ⟨?_, ?_, fun v h => FindRet.noConfusion h,
    fun p h => FindRet.noConfusion h⟩
  · simp [find_device, hvalid, hmiss]
  · simp [find_device, hvalid, hmiss]

/-- Witness for C8 (amended) at a fresh cache and identifier `A`. -/
theorem find_device_none_on_empty_and_error_witness :
    (([] : DeviceCache).lookup ("annotatedAssetId" ++ ":" ++ "A") = none)
    ∧ (find_device (.ok []) [] "A" "annotatedAssetId" [] false
        = .ok (.notFound, [], 1)
      ∧ find_device (.error "boom") [] "A" "annotatedAssetId" [] false
        = .ok (.notFound, [], 1)
      ∧ (∀ v, FindRet.notFound ≠ .value v)
      ∧ (∀ p, FindRet.notFound ≠ .projection p)) :=
  ⟨rfl, find_device_none_on_empty_and_error [] "A" "annotatedAssetId" "boom"
    [] false (Or.inl rfl) rfl⟩

/-- C8 counterexample: zero remote matches and a raised remote exception
produce the *same* return value (`None`, with the cache untouched), refuting
the claimed distinctness of the not-found sentinel from the error outcome. -/
theorem find_device_not_found_equals_error_return :
    find_device (.ok []) [] "A" "annotatedAssetId" [] false
      = find_device (.error "boom") [] "A" "annotatedAssetId" [] false
    ∧ find_device (.ok []) [] "A" "annotatedAssetId" [] false
      = .ok (.notFound, [], 1) :=
  ⟨rfl, rfl⟩

/-- Witness for C2 at a one-element batch whose attempts all fail. -/
theorem process_batch_retry_contract_witness :
    ((fun _ => (.error "boom" : Except String Unit)) 0 = .error "boom")
    ∧ (process_batch (fun _ => .error "boom") [⟨"id1", some "A1", "/O", "ACTIVE"⟩] "X").result
        = .failure [⟨"id1", some "A1", "boom"⟩]
    ∧ (process_batch (fun _ => .error "boom") [⟨"id1", some "A1", "/O", "ACTIVE"⟩] "X").sleeps
        = [RETRY_DELAY, RETRY_DELAY] := by
  have h := (process_batch_retry_contract (fun _ => .error "boom")
    [⟨"id1", some "A1", "/O", "ACTIVE"⟩] "X" "boom" "boom" "boom").2.2.2.2 rfl rfl rfl
  exact ⟨rfl, h.1, h.2.2⟩

/-- Witness for C9: `delaySeconds = 301` is rejected. -/
theorem reboot_devices_rejects_301_witness :
    ((301 : Int) < 0 ∨ (300 : Int) < 301)
    ∧ (reboot_devices (fun _ => none) (fun _ _ => .ok none) ["A"] 301
        = .error "user_session_delay_seconds must be an integer between 0 and 300."
      ∧ reboot_devices (fun _ => none) (fun _ _ => .ok none) ["A"] 301
        = reboot_devices (fun _ => some ⟨"id", none, "/", "ACTIVE"⟩)
            (fun _ _ => .err "boom") [] 301) :=
  ⟨by decide,
    reboot_devices_rejects_out_of_range_delay (fun _ => none)
      (fun _ => some ⟨"id", none, "/", "ACTIVE"⟩) (fun _ _ => .ok none)
      (fun _ _ => .err "boom") ["A"] [] 301 (by decide)⟩

end Athena
